import Mathlib

/-!
Verification of the authentication/authorization core of this repository:
the RBAC rule matcher (`Rule.ResourceMatches`, `Rule.ResourceNameMatches`),
the directory-backed (LDAP) authentication provider and the allow-all
provider.  The directory server is embedded as an oracle recording the
outcome of each protocol operation (dial, StartTLS, bind, search); each Go
function is translated into a pure Lean function over that oracle.
-/

namespace SensuGo

/-! ## RBAC rule matching -/

/-- The wildcard token matching every resource or verb (`ResourceAll` in
`api/core/v2`). -/
def ResourceAll : String := "*"

/-- An RBAC rule: verbs, resource types and (optionally) resource names. -/
structure Rule where
  Verbs : List String
  Resources : List String
  ResourceNames : List String

/-- Modelled from the spec: the body of `Rule.ResourceMatches` from
`api/core/v2` is not under `src/` (only its test `TestRuleResourceMatches`
is).  Per the spec it is true iff the rule's resource set contains the
all-resources wildcard token or contains the requested resource exactly;
this agrees with every case of `TestRuleResourceMatches`. -/
def Rule.ResourceMatches (r : Rule) (requestedResource : String) : Bool :=
  r.Resources.any (fun resource => resource == ResourceAll || resource == requestedResource)

/-- Modelled from the spec: the body of `Rule.ResourceNameMatches` from
`api/core/v2` is not under `src/` (only its test
`TestRuleResourceNameMatches` is).  Per the spec an empty resource-name set
matches any requested name, and a non-empty set requires exact membership;
this agrees with every case of `TestRuleResourceNameMatches`. -/
def Rule.ResourceNameMatches (r : Rule) (requestedResourceName : String) : Bool :=
  if r.ResourceNames.isEmpty then
    true
  else
    r.ResourceNames.any (fun name => name == requestedResourceName)

/-- The four test vectors of `TestRuleResourceMatches` hold of the model. -/
theorem resourceMatches_test_vectors :
    (Rule.ResourceMatches ⟨[], [], []⟩ "checks" = false) ∧
    (Rule.ResourceMatches ⟨[], [ResourceAll], []⟩ "checks" = true) ∧
    (Rule.ResourceMatches ⟨[], ["checks"], []⟩ "events" = false) ∧
    (Rule.ResourceMatches ⟨[], ["checks", "events"], []⟩ "events" = true) := by
  decide

/-- The four test vectors of `TestRuleResourceNameMatches` hold of the model. -/
theorem resourceNameMatches_test_vectors :
    (Rule.ResourceNameMatches ⟨[], [], []⟩ "checks" = true) ∧
    (Rule.ResourceNameMatches ⟨[], [], ["foo"]⟩ "" = false) ∧
    (Rule.ResourceNameMatches ⟨[], [], ["foo"]⟩ "bar" = false) ∧
    (Rule.ResourceNameMatches ⟨[], [], ["foo", "bar"]⟩ "bar" = true) := by
  decide

/-- C1: for every rule `r` and requested resource `x`, `ResourceMatches r x`
is true iff `r`'s resource set contains the all-resources wildcard token or
contains `x` exactly; in particular an empty resource set matches nothing. -/
theorem resourceMatches_iff (r : Rule) (x : String) :
    (r.ResourceMatches x = true ↔ ResourceAll ∈ r.Resources ∨ x ∈ r.Resources) ∧
    (r.Resources = [] → r.ResourceMatches x = false) := by
  constructor
  · simp only [Rule.ResourceMatches, List.any_eq_true, Bool.or_eq_true, beq_iff_eq]
    constructor
    · rintro ⟨resource, hmem, hcase | hcase⟩
      · exact Or.inl (hcase ▸ hmem)
      · exact Or.inr (hcase ▸ hmem)
    · rintro (hmem | hmem)
      · exact ⟨ResourceAll, hmem, Or.inl rfl⟩
      · exact ⟨x, hmem, Or.inr rfl⟩
  · intro hempty
    simp [Rule.ResourceMatches, hempty]

/-- Witness for C1: evaluated on the empty-resources rule and on a concrete
matching rule. -/
theorem resourceMatches_iff_witness :
    (Rule.ResourceMatches ⟨[], [], []⟩ "checks" = false) ∧
    (Rule.ResourceMatches ⟨[], ["checks", "events"], []⟩ "events" = true) :=
  ⟨(resourceMatches_iff ⟨[], [], []⟩ "checks").2 rfl,
   (resourceMatches_iff ⟨[], ["checks", "events"], []⟩ "events").1.mpr
     (Or.inr (by decide))⟩

/-- C2: for every rule `r` and requested name `n`, an empty resource-name set
matches every `n` (including the empty string), and a non-empty set matches
iff `n` is a member. -/
theorem resourceNameMatches_iff (r : Rule) (n : String) :
    (r.ResourceNames = [] → r.ResourceNameMatches n = true) ∧
    (r.ResourceNames ≠ [] →
      (r.ResourceNameMatches n = true ↔ n ∈ r.ResourceNames)) := by
  constructor
  · intro hempty
    simp [Rule.ResourceNameMatches, hempty]
  · intro hne
    have hnotempty : r.ResourceNames.isEmpty = false := by
      cases h : r.ResourceNames with
      | nil => exact absurd h hne
      | cons a l => simp
    simp only [Rule.ResourceNameMatches, hnotempty, Bool.false_eq_true, if_false,
      List.any_eq_true, beq_iff_eq]
    constructor
    · rintro ⟨name, hmem, hcase⟩
      exact hcase ▸ hmem
    · intro hmem
      exact ⟨n, hmem, rfl⟩

/-- Witness for C2: an empty resource-name set matches the empty string, and
a non-empty set requires membership. -/
theorem resourceNameMatches_iff_witness :
    (Rule.ResourceNameMatches ⟨[], [], []⟩ "" = true) ∧
    (Rule.ResourceNameMatches ⟨[], [], ["foo"]⟩ "bar" = false) := by
  refine ⟨(resourceNameMatches_iff ⟨[], [], []⟩ "").1 rfl, ?_⟩
  have h := (resourceNameMatches_iff ⟨[], [], ["foo"]⟩ "bar").2 (by decide)
  by_contra hcontra
  have : Rule.ResourceNameMatches ⟨[], [], ["foo"]⟩ "bar" = true := by
    revert hcontra
    cases Rule.ResourceNameMatches ⟨[], [], ["foo"]⟩ "bar" <;> simp
  exact absurd (h.mp this) (by decide)

/-! ## Directory (LDAP) embedding

The go-ldap client is embedded as an oracle `Directory` recording the
outcome of each protocol operation.  Every Go function of
`src/backend/authentication/providers/ldap/ldap.go` opens a fresh
connection, so each Lean translation consults the oracle afresh in the
same order as the source: dial, optional StartTLS, bind(s), search. -/

/-- A directory entry: its distinguished name and its attributes (each
attribute has a list of values). -/
structure Entry where
  DN : String
  attrs : List (String × List String)
deriving DecidableEq

/-- `Entry.GetAttributeValue` of go-ldap: the first value of the named
attribute, or the empty string when the entry has no such attribute. -/
def Entry.getAttributeValue (e : Entry) (attributeName : String) : String :=
  match e.attrs.find? (fun kv => kv.1 == attributeName) with
  | some kv => kv.2.headD ""
  | none => ""

/-- The parameters of `ldap.NewSearchRequest` that the provider sets:
base DN, scope (`ScopeWholeSubtree = 2`), dereference policy
(`NeverDerefAliases = 0`), filter and requested attributes. -/
structure SearchRequest where
  BaseDN : String
  Scope : Nat
  DerefAliases : Nat
  Filter : String
  Attributes : List String
deriving DecidableEq

/-- The directory-server oracle: the outcome of dialing, of the StartTLS
upgrade, of binding as a given DN/password pair, and of a search.  `none`
means the operation succeeds; `some e` carries the error. -/
structure Directory where
  dialErr : Option String
  startTLSErr : Option String
  bindErr : String → String → Option String
  search : SearchRequest → Except String (List Entry)

/-- Configuration of the directory-backed provider (`ldap.Provider`). -/
structure LdapProvider where
  BindUsername : String
  BindPassword : String
  StartTLS : Bool
  URL : String
  UserBaseDN : String
  UserAttribute : String
  UserClass : String
  GroupBaseDN : String
  GroupAttribute : String
  GroupClass : String
  GroupUserDNAttribute : String

/-- `ldap.Provider.Name` returns the constant provider type `"ldap"`. -/
def LdapProvider.Name (_ : LdapProvider) : String := "ldap"

/-- The user search filter built in `getDN`:
`(&(objectClass=<UserClass>)(<UserAttribute>=<username>))`. -/
def LdapProvider.userFilter (p : LdapProvider) (username : String) : String :=
  "(&(objectClass=" ++ p.UserClass ++ ")(" ++ p.UserAttribute ++ "=" ++ username ++ "))"

/-- The search request issued by `getDN`: subtree search under the user
base DN requesting only the `dn` attribute. -/
def LdapProvider.userSearchRequest (p : LdapProvider) (username : String) : SearchRequest :=
  { BaseDN := p.UserBaseDN, Scope := 2, DerefAliases := 0,
    Filter := p.userFilter username, Attributes := ["dn"] }

/-- The uniform error `getDN` returns for zero or multiple matches. -/
def userLookupErr : String := "User does not exist or too many entries returned"

/-- `Provider.getDN`: dial, optional StartTLS, service-account bind, user
search; requires exactly one entry and returns its DN. -/
def LdapProvider.getDN (p : LdapProvider) (d : Directory) (username : String) :
    Except String String :=
  match d.dialErr with
  | some e => .error e
  | none =>
  match (if p.StartTLS then d.startTLSErr else none) with
  | some e => .error e
  | none =>
  match d.bindErr p.BindUsername p.BindPassword with
  | some e => .error e
  | none =>
  match d.search (p.userSearchRequest username) with
  | .error e => .error e
  | .ok entries =>
    match entries with
    | [entry] => .ok entry.DN
    | _ => .error userLookupErr

/-- `Provider.validatePassword`: dial, optional StartTLS, then bind as the
user with the supplied DN and password; `none` means success and `some e`
returns the bind (or connection) error unchanged. -/
def LdapProvider.validatePassword (p : LdapProvider) (d : Directory)
    (dn password : String) : Option String :=
  match d.dialErr with
  | some e => some e
  | none =>
  match (if p.StartTLS then d.startTLSErr else none) with
  | some e => some e
  | none => d.bindErr dn password

/-- The group search filter built in `getGroups`:
`(&(objectClass=<GroupClass>)(<GroupUserDNAttribute>=<userdn>))`. -/
def LdapProvider.groupFilter (p : LdapProvider) (userdn : String) : String :=
  "(&(objectClass=" ++ p.GroupClass ++ ")(" ++ p.GroupUserDNAttribute ++ "=" ++ userdn ++ "))"

/-- The search request issued by `getGroups`: subtree search under the
group base DN requesting only the configured group-name attribute. -/
def LdapProvider.groupSearchRequest (p : LdapProvider) (userdn : String) : SearchRequest :=
  { BaseDN := p.GroupBaseDN, Scope := 2, DerefAliases := 0,
    Filter := p.groupFilter userdn, Attributes := [p.GroupAttribute] }

/-- `Provider.getGroups`: dial, optional StartTLS, service-account bind,
group search; collects the configured group-name attribute value of every
entry (an empty result is not an error). -/
def LdapProvider.getGroups (p : LdapProvider) (d : Directory) (userdn : String) :
    Except String (List String) :=
  match d.dialErr with
  | some e => .error e
  | none =>
  match (if p.StartTLS then d.startTLSErr else none) with
  | some e => .error e
  | none =>
  match d.bindErr p.BindUsername p.BindPassword with
  | some e => .error e
  | none =>
  match d.search (p.groupSearchRequest userdn) with
  | .error e => .error e
  | .ok entries => .ok (entries.map (fun entry => entry.getAttributeValue p.GroupAttribute))

/-! ## Identity, claims and the claims builders -/

/-- `corev2.User` as constructed by the providers' claims builders. -/
structure UserV where
  Username : String
  Groups : List String
  Disabled : Bool

/-- `corev2.AuthProviderClaims`: provider attribution on the claims. -/
structure AuthProviderClaims where
  ProviderID : String
  UserID : String
deriving DecidableEq

/-- `corev2.Claims` as this core observes them: the subject (username),
the group set, the disabled flag carried over from the identity, and the
provider attribution.  Issued-at/expiry fields are owned by the external
token layer and are not modelled. -/
structure ClaimsV where
  Subject : String
  Groups : List String
  Disabled : Bool
  Provider : AuthProviderClaims
deriving DecidableEq

/-- The Go return value of a function returning `(*corev2.Claims, error)`:
either an ordinary pair (a possibly-nil claims pointer and a possibly-nil
error) or a run-time panic (nil-pointer dereference). -/
inductive GoRet where
  | ret (claims : Option ClaimsV) (err : Option String)
  | panics
deriving DecidableEq

/-- The signature of `jwt.NewClaims`: from a user, a possibly-nil claims
pointer and a possibly-nil error. -/
def NewClaimsFn : Type := UserV → Option ClaimsV × Option String

/-- Modelled from the spec: `jwt.NewClaims` (the signing step of the
Identity Claims Builder) is code of this repository that is not under
`src/`.  Per the spec it converts the identity into claims carrying the
username and group set and fails only if the signing step fails; the
signing outcome is an explicit oracle argument, and on failure no claims
value is produced. -/
def jwtNewClaims (signErr : Option String) : NewClaimsFn := fun u =>
  match signErr with
  | some e => (none, some e)
  | none =>
    (some { Subject := u.Username, Groups := u.Groups, Disabled := u.Disabled,
            Provider := { ProviderID := "", UserID := "" } }, none)

/-- The `corev2.User` literal built inside `ldap.Provider.claims`: the
username, the resolved groups, and `Disabled: false`. -/
def ldapBuilderUser (username : String) (groups : List String) : UserV :=
  { Username := username, Groups := groups, Disabled := false }

/-- `ldap.Provider.claims`: calls `jwt.NewClaims` on the user, then assigns
the `Provider` attribution on the returned claims pointer BEFORE examining
the error; when that pointer is nil this is a nil-pointer dereference
(`GoRet.panics`), otherwise both the (now populated) claims and the error
are returned. -/
def LdapProvider.claims (p : LdapProvider) (nc : NewClaimsFn)
    (username : String) (groups : List String) : GoRet :=
  match nc (ldapBuilderUser username groups) with
  | (none, _) => .panics
  | (some c, err) =>
    .ret (some { c with Provider := { ProviderID := p.Name, UserID := username } }) err

/-- The named steps of the directory-backed authentication flow, used to
record which steps a call executes and in which order. -/
inductive Step where
  | resolveDN
  | verifyPassword
  | resolveGroups
  | claimsBuilder
deriving DecidableEq

/-- `ldap.Provider.Authenticate`: `getDN`, then `validatePassword`, then
`getGroups`, then the claims builder, returning the first error and
stopping there.  The second component records the steps executed, in
order. -/
def LdapProvider.Authenticate (p : LdapProvider) (d : Directory) (nc : NewClaimsFn)
    (username password : String) : GoRet × List Step :=
  match p.getDN d username with
  | .error e => (.ret none (some e), [Step.resolveDN])
  | .ok dn =>
    match p.validatePassword d dn password with
    | some e => (.ret none (some e), [Step.resolveDN, Step.verifyPassword])
    | none =>
      match p.getGroups d dn with
      | .error e =>
        (.ret none (some e), [Step.resolveDN, Step.verifyPassword, Step.resolveGroups])
      | .ok groups =>
        (p.claims nc username groups,
         [Step.resolveDN, Step.verifyPassword, Step.resolveGroups, Step.claimsBuilder])

/-- `ldap.Provider.Refresh`: `getDN` for the user ID embedded in the
presented claims, then `getGroups`, then the claims builder; the password
is never verified.  The second component records the steps executed. -/
def LdapProvider.Refresh (p : LdapProvider) (d : Directory) (nc : NewClaimsFn)
    (presented : ClaimsV) : GoRet × List Step :=
  match p.getDN d presented.Provider.UserID with
  | .error e => (.ret none (some e), [Step.resolveDN])
  | .ok dn =>
    match p.getGroups d dn with
    | .error e => (.ret none (some e), [Step.resolveDN, Step.resolveGroups])
    | .ok groups =>
      (p.claims nc presented.Provider.UserID groups,
       [Step.resolveDN, Step.resolveGroups, Step.claimsBuilder])

/-! ## The allow-all provider -/

/-- `allowall.Provider` carries only object metadata; no configuration. -/
structure AllowAllProvider where
  MetaName : String

/-- `allowall.Provider.Name` returns the constant provider type
`"allowall"`. -/
def AllowAllProvider.Name (_ : AllowAllProvider) : String := "allowall"

/-- The `corev2.User` literal built inside `allowall.Provider.claims`:
fixed groups `["cluster-admins"]` and `Disabled: false`. -/
def allowallBuilderUser (username : String) : UserV :=
  { Username := username, Groups := ["cluster-admins"], Disabled := false }

/-- `allowall.Provider.claims`: same shape as the ldap builder, with the
fixed administrative group. -/
def AllowAllProvider.claims (p : AllowAllProvider) (nc : NewClaimsFn)
    (username : String) : GoRet :=
  match nc (allowallBuilderUser username) with
  | (none, _) => .panics
  | (some c, err) =>
    .ret (some { c with Provider := { ProviderID := p.Name, UserID := username } }) err

/-- `allowall.Provider.Authenticate`: returns `p.claims username` without
consulting the password. -/
def AllowAllProvider.Authenticate (p : AllowAllProvider) (nc : NewClaimsFn)
    (username _password : String) : GoRet :=
  p.claims nc username

/-- `allowall.Provider.Refresh`: re-issues claims for the user ID embedded
in the presented claims. -/
def AllowAllProvider.Refresh (p : AllowAllProvider) (nc : NewClaimsFn)
    (presented : ClaimsV) : GoRet :=
  p.claims nc presented.Provider.UserID

/-! ## Concrete fixtures used to evaluate the theorems -/

/-- A concrete directory-backed provider configuration. -/
def pFix : LdapProvider :=
  { BindUsername := "cn=svc,dc=example,dc=org", BindPassword := "svcsecret",
    StartTLS := false, URL := "ldap://directory.example.org",
    UserBaseDN := "dc=users,dc=example,dc=org", UserAttribute := "uid",
    UserClass := "person", GroupBaseDN := "dc=groups,dc=example,dc=org",
    GroupAttribute := "cn", GroupClass := "groupOfNames",
    GroupUserDNAttribute := "member" }

/-- The single directory entry for user `alice`. -/
def aliceEntry : Entry :=
  { DN := "uid=alice,dc=users,dc=example,dc=org", attrs := [] }

/-- The single group entry alice belongs to, named `admins`. -/
def adminsEntry : Entry :=
  { DN := "cn=admins,dc=groups,dc=example,dc=org", attrs := [("cn", ["admins"])] }

/-- A concrete directory: service bind and alice's bind with password
`"alicepw"` succeed, any other bind fails; user searches return alice's
entry and group searches return the `admins` entry. -/
def dFix : Directory :=
  { dialErr := none, startTLSErr := none,
    bindErr := fun dn password =>
      if dn == "cn=svc,dc=example,dc=org" && password == "svcsecret" then none
      else if dn == "uid=alice,dc=users,dc=example,dc=org" && password == "alicepw" then none
      else some "invalid credentials",
    search := fun req =>
      if req.BaseDN == "dc=users,dc=example,dc=org" then .ok [aliceEntry]
      else .ok [adminsEntry] }

/-- The same directory after alice's password changed: only the service
bind succeeds, every bind as alice (or anyone else) now fails. -/
def dFixChanged : Directory :=
  { dialErr := none, startTLSErr := none,
    bindErr := fun dn password =>
      if dn == "cn=svc,dc=example,dc=org" && password == "svcsecret" then none
      else some "invalid credentials",
    search := fun req =>
      if req.BaseDN == "dc=users,dc=example,dc=org" then .ok [aliceEntry]
      else .ok [adminsEntry] }

/-! ## Claim theorems -/

/-- C4: given that dial, optional StartTLS, service bind and the user
search succeed, `getDN` returns a DN iff the search produced exactly one
entry (and then returns that entry's DN); zero or more than one entries
yield the one uniform error `userLookupErr`, identical in both cases. -/
theorem getDN_requires_unique_match (p : LdapProvider) (d : Directory) (username : String)
    (es : List Entry)
    (hdial : d.dialErr = none)
    (htls : (if p.StartTLS then d.startTLSErr else none) = none)
    (hbind : d.bindErr p.BindUsername p.BindPassword = none)
    (hsearch : d.search (p.userSearchRequest username) = .ok es) :
    (∀ dn, p.getDN d username = .ok dn ↔ ∃ ent, es = [ent] ∧ ent.DN = dn) ∧
    (es.length ≠ 1 → p.getDN d username = .error userLookupErr) := by
  constructor
  · intro dn
    simp only [LdapProvider.getDN, hdial, htls, hbind, hsearch]
    match es with
    | [] => simp
    | [entry] =>
      simp only [Except.ok.injEq]
      constructor
      · intro h
        exact ⟨entry, rfl, h⟩
      · rintro ⟨ent, hent, hdn⟩
        cases List.cons.injEq .. ▸ hent with
        | intro h1 _ => exact h1 ▸ hdn
    | e1 :: e2 :: rest => simp
  · intro hlen
    simp only [LdapProvider.getDN, hdial, htls, hbind, hsearch]
    match es, hlen with
    | [], _ => rfl
    | [entry], hlen => exact absurd rfl hlen
    | e1 :: e2 :: rest, _ => rfl

/-- Witness for C4: on the concrete directory, `getDN` for `alice` returns
alice's DN from the single matching entry. -/
theorem getDN_requires_unique_match_witness :
    pFix.getDN dFix "alice" = .ok "uid=alice,dc=users,dc=example,dc=org" :=
  ((getDN_requires_unique_match pFix dFix "alice" [aliceEntry]
      rfl rfl (by decide) rfl).1
    "uid=alice,dc=users,dc=example,dc=org").mpr ⟨aliceEntry, rfl, rfl⟩

/-- C9: given that dial, optional StartTLS, service bind and the group
search succeed, `getGroups` returns the configured group-name attribute
value of every matching entry; zero matches give the empty group set with
no error. -/
theorem getGroups_collects_attribute (p : LdapProvider) (d : Directory) (userdn : String)
    (es : List Entry)
    (hdial : d.dialErr = none)
    (htls : (if p.StartTLS then d.startTLSErr else none) = none)
    (hbind : d.bindErr p.BindUsername p.BindPassword = none)
    (hsearch : d.search (p.groupSearchRequest userdn) = .ok es) :
    p.getGroups d userdn =
      .ok (es.map (fun ent => ent.getAttributeValue p.GroupAttribute)) ∧
    (es = [] → p.getGroups d userdn = .ok []) := by
  have hmain : p.getGroups d userdn =
      .ok (es.map (fun ent => ent.getAttributeValue p.GroupAttribute)) := by
    simp only [LdapProvider.getGroups, hdial, htls, hbind, hsearch]
  refine ⟨hmain, fun hempty => ?_⟩
  rw [hmain, hempty]
  rfl

/-- Witness for C9: on the concrete directory, `getGroups` for alice's DN
returns the value of the `cn` attribute of the one matching group entry. -/
theorem getGroups_collects_attribute_witness :
    pFix.getGroups dFix "uid=alice,dc=users,dc=example,dc=org" = .ok ["admins"] :=
  (getGroups_collects_attribute pFix dFix "uid=alice,dc=users,dc=example,dc=org"
    [adminsEntry] rfl rfl (by decide) rfl).1

/-- A directory identical to `dFixChanged` except that binding as alice
fails with a network error instead of a credential error. -/
def dFixNetFail : Directory :=
  { dialErr := none, startTLSErr := none,
    bindErr := fun dn password =>
      if dn == "cn=svc,dc=example,dc=org" && password == "svcsecret" then none
      else some "network unreachable",
    search := fun req =>
      if req.BaseDN == "dc=users,dc=example,dc=org" then .ok [aliceEntry]
      else .ok [adminsEntry] }

/-- Counterexample to C5: two directories whose bind-as-user calls fail for
different underlying reasons produce two DIFFERENT errors at the
`Authenticate` flow — the bind failure is not reported as one single
uniform outcome, so the caller can distinguish the underlying cause. -/
theorem validatePassword_not_uniform :
    (pFix.Authenticate dFixChanged (jwtNewClaims none) "alice" "oldpw").1 =
      GoRet.ret none (some "invalid credentials") ∧
    (pFix.Authenticate dFixNetFail (jwtNewClaims none) "alice" "oldpw").1 =
      GoRet.ret none (some "network unreachable") ∧
    some "invalid credentials" ≠ some "network unreachable" := by
  refine ⟨rfl, rfl, by decide⟩

/-- C5 as amended: `validatePassword` succeeds exactly when the
bind-as-user call succeeds, and on failure the underlying directory error
is propagated verbatim (unchanged) to the calling `Authenticate` flow,
rather than being collapsed into one uniform invalid-credentials value. -/
theorem validatePassword_propagates_bind (p : LdapProvider) (d : Directory)
    (dn password : String)
    (hdial : d.dialErr = none)
    (htls : (if p.StartTLS then d.startTLSErr else none) = none) :
    p.validatePassword d dn password = d.bindErr dn password ∧
    (p.validatePassword d dn password = none ↔ d.bindErr dn password = none) := by
  have hmain : p.validatePassword d dn password = d.bindErr dn password := by
    simp only [LdapProvider.validatePassword, hdial, htls]
  exact ⟨hmain, by rw [hmain]⟩

/-- Witness for the amended C5: on the concrete directory, alice's correct
password binds successfully and a wrong password surfaces the directory's
own bind error. -/
theorem validatePassword_propagates_bind_witness :
    pFix.validatePassword dFix "uid=alice,dc=users,dc=example,dc=org" "alicepw" = none ∧
    pFix.validatePassword dFix "uid=alice,dc=users,dc=example,dc=org" "wrong" =
      some "invalid credentials" := by
  refine ⟨?_, ?_⟩
  · exact (validatePassword_propagates_bind pFix dFix
      "uid=alice,dc=users,dc=example,dc=org" "alicepw" rfl rfl).2.mpr (by decide)
  · rw [(validatePassword_propagates_bind pFix dFix
      "uid=alice,dc=users,dc=example,dc=org" "wrong" rfl rfl).1]
    decide

/-- C3: the directory-backed `Authenticate` runs `getDN` (ResolveDN), then
`validatePassword` (VerifyPassword), then `getGroups` (ResolveGroups), then
the claims builder, in that order; the first error is returned and no later
step is executed (the step trace stops at the failing step); a fully
successful result arises only when all four steps succeed. -/
theorem ldap_authenticate_sequence (p : LdapProvider) (d : Directory) (nc : NewClaimsFn)
    (username password : String) :
    (∀ e, p.getDN d username = .error e →
      p.Authenticate d nc username password = (.ret none (some e), [Step.resolveDN])) ∧
    (∀ dn e, p.getDN d username = .ok dn → p.validatePassword d dn password = some e →
      p.Authenticate d nc username password =
        (.ret none (some e), [Step.resolveDN, Step.verifyPassword])) ∧
    (∀ dn e, p.getDN d username = .ok dn → p.validatePassword d dn password = none →
      p.getGroups d dn = .error e →
      p.Authenticate d nc username password =
        (.ret none (some e), [Step.resolveDN, Step.verifyPassword, Step.resolveGroups])) ∧
    (∀ dn groups, p.getDN d username = .ok dn → p.validatePassword d dn password = none →
      p.getGroups d dn = .ok groups →
      p.Authenticate d nc username password =
        (p.claims nc username groups,
         [Step.resolveDN, Step.verifyPassword, Step.resolveGroups, Step.claimsBuilder])) ∧
    (∀ c, (p.Authenticate d nc username password).1 = GoRet.ret (some c) none →
      ∃ dn groups, p.getDN d username = .ok dn ∧ p.validatePassword d dn password = none ∧
        p.getGroups d dn = .ok groups ∧
        p.claims nc username groups = GoRet.ret (some c) none) := by
  refine ⟨?_, ?_, ?_, ?_, ?_⟩
  · intro e hdn
    simp [LdapProvider.Authenticate, hdn]
  · intro dn e hdn hvp
    simp [LdapProvider.Authenticate, hdn, hvp]
  · intro dn e hdn hvp hg
    simp [LdapProvider.Authenticate, hdn, hvp, hg]
  · intro dn groups hdn hvp hg
    simp [LdapProvider.Authenticate, hdn, hvp, hg]
  · intro c hsucc
    cases hdn : p.getDN d username with
    | error e => simp [LdapProvider.Authenticate, hdn] at hsucc
    | ok dn =>
      cases hvp : p.validatePassword d dn password with
      | some e => simp [LdapProvider.Authenticate, hdn, hvp] at hsucc
      | none =>
        cases hg : p.getGroups d dn with
        | error e => simp [LdapProvider.Authenticate, hdn, hvp, hg] at hsucc
        | ok groups =>
          refine ⟨dn, groups, rfl, hvp, hg, ?_⟩
          simpa [LdapProvider.Authenticate, hdn, hvp, hg] using hsucc

/-- Witness for C3: on the concrete directory with alice's correct
password, all four steps succeed and `Authenticate` returns the populated
claims; the fourth conjunct is applied at those inputs. -/
theorem ldap_authenticate_sequence_witness :
    pFix.Authenticate dFix (jwtNewClaims none) "alice" "alicepw" =
      (pFix.claims (jwtNewClaims none) "alice" ["admins"],
       [Step.resolveDN, Step.verifyPassword, Step.resolveGroups, Step.claimsBuilder]) :=
  (ldap_authenticate_sequence pFix dFix (jwtNewClaims none) "alice" "alicepw").2.2.2.1
    "uid=alice,dc=users,dc=example,dc=org" ["admins"] rfl (by decide) rfl

/-- C8: the allow-all `Authenticate` never consults the password — for any
two passwords the result is identical, whatever `jwt.NewClaims` does — and
(with the signing step succeeding) it unconditionally succeeds with groups
`["cluster-admins"]` and provider identifier `"allowall"`. -/
theorem allowall_authenticate_ignores_password (p : AllowAllProvider) (nc : NewClaimsFn)
    (username password1 password2 : String) :
    p.Authenticate nc username password1 = p.Authenticate nc username password2 ∧
    ∃ c, p.Authenticate (jwtNewClaims none) username password1 = GoRet.ret (some c) none ∧
      c.Groups = ["cluster-admins"] ∧ c.Provider.ProviderID = "allowall" := by
  exact ⟨rfl, ⟨⟨username, ["cluster-admins"], false, ⟨"allowall", username⟩⟩, rfl, rfl, rfl⟩⟩

/-- C10: in both claims builders the `Provider` attribution is assigned on
the pointer returned by `jwt.NewClaims` before its error is examined: the
builder panics (nil dereference) exactly when that pointer is nil, and when
`jwt.NewClaims` returns a claims value together with an error, the builder
returns the populated claims value alongside that error rather than nil. -/
theorem claims_builder_assigns_before_error (pl : LdapProvider) (pa : AllowAllProvider)
    (nc : NewClaimsFn) (username : String) (groups : List String) :
    (pl.claims nc username groups = GoRet.panics ↔
      (nc (ldapBuilderUser username groups)).1 = none) ∧
    (∀ c e, nc (ldapBuilderUser username groups) = (some c, some e) →
      pl.claims nc username groups =
        GoRet.ret (some { c with Provider := { ProviderID := pl.Name, UserID := username } })
          (some e)) ∧
    (pa.claims nc username = GoRet.panics ↔
      (nc (allowallBuilderUser username)).1 = none) ∧
    (∀ c e, nc (allowallBuilderUser username) = (some c, some e) →
      pa.claims nc username =
        GoRet.ret (some { c with Provider := { ProviderID := pa.Name, UserID := username } })
          (some e)) := by
  refine ⟨?_, ?_, ?_, ?_⟩
  · rcases h : nc (ldapBuilderUser username groups) with ⟨copt, eopt⟩
    cases copt <;> simp [LdapProvider.claims, h]
  · intro c e h
    simp [LdapProvider.claims, h]
  · rcases h : nc (allowallBuilderUser username) with ⟨copt, eopt⟩
    cases copt <;> simp [AllowAllProvider.claims, h]
  · intro c e h
    simp [AllowAllProvider.claims, h]

/-- Witness for C10: a `jwt.NewClaims` that returns a claims value together
with a signing error makes the ldap builder return the populated claims
alongside that error (second conjunct, applied at concrete inputs). -/
theorem claims_builder_assigns_before_error_witness :
    pFix.claims
        (fun u => (some ⟨u.Username, u.Groups, u.Disabled, ⟨"", ""⟩⟩, some "signing failed"))
        "alice" ["admins"] =
      GoRet.ret
        (some ⟨"alice", ["admins"], false, ⟨"ldap", "alice"⟩⟩)
        (some "signing failed") :=
  (claims_builder_assigns_before_error pFix ⟨"allowall"⟩
      (fun u => (some ⟨u.Username, u.Groups, u.Disabled, ⟨"", ""⟩⟩, some "signing failed"))
      "alice" ["admins"]).2.1
    ⟨"alice", ["admins"], false, ⟨"", ""⟩⟩ "signing failed" rfl

/-- `getDN` reads the directory only through dial, StartTLS, the
service-account bind and the search; it never consults any other bind. -/
theorem getDN_congr (p : LdapProvider) (d1 d2 : Directory) (username : String)
    (hdial : d1.dialErr = d2.dialErr) (htls : d1.startTLSErr = d2.startTLSErr)
    (hsearch : d1.search = d2.search)
    (hbind : d1.bindErr p.BindUsername p.BindPassword =
      d2.bindErr p.BindUsername p.BindPassword) :
    p.getDN d1 username = p.getDN d2 username := by
  unfold LdapProvider.getDN
  rw [hdial, htls, hbind, hsearch]

/-- `getGroups` likewise reads the directory only through dial, StartTLS,
the service-account bind and the search. -/
theorem getGroups_congr (p : LdapProvider) (d1 d2 : Directory) (userdn : String)
    (hdial : d1.dialErr = d2.dialErr) (htls : d1.startTLSErr = d2.startTLSErr)
    (hsearch : d1.search = d2.search)
    (hbind : d1.bindErr p.BindUsername p.BindPassword =
      d2.bindErr p.BindUsername p.BindPassword) :
    p.getGroups d1 userdn = p.getGroups d2 userdn := by
  unfold LdapProvider.getGroups
  rw [hdial, htls, hbind, hsearch]

/-- C6: the directory-backed `Refresh` never runs the VerifyPassword step:
its step trace never contains `verifyPassword`; its result is unchanged
under any change to the directory's non-service-account bind outcomes (in
particular a changed user password); and whenever `getDN` and `getGroups`
succeed for the user ID embedded in the presented claims, `Refresh`
returns the rebuilt claims. -/
theorem ldap_refresh_never_verifies_password (p : LdapProvider) (d : Directory)
    (nc : NewClaimsFn) (presented : ClaimsV) :
    Step.verifyPassword ∉ (p.Refresh d nc presented).2 ∧
    (∀ d2 : Directory, d2.dialErr = d.dialErr → d2.startTLSErr = d.startTLSErr →
      d2.search = d.search →
      d2.bindErr p.BindUsername p.BindPassword = d.bindErr p.BindUsername p.BindPassword →
      p.Refresh d2 nc presented = p.Refresh d nc presented) ∧
    (∀ dn groups, p.getDN d presented.Provider.UserID = .ok dn →
      p.getGroups d dn = .ok groups →
      (p.Refresh d nc presented).1 = p.claims nc presented.Provider.UserID groups) := by
  refine ⟨?_, ?_, ?_⟩
  · cases hdn : p.getDN d presented.Provider.UserID with
    | error e => simp [LdapProvider.Refresh, hdn]
    | ok dn =>
      cases hg : p.getGroups d dn with
      | error e => simp [LdapProvider.Refresh, hdn, hg]
      | ok groups => simp [LdapProvider.Refresh, hdn, hg]
  · intro d2 h1 h2 h3 h4
    unfold LdapProvider.Refresh
    rw [getDN_congr p d2 d presented.Provider.UserID h1 h2 h3 h4]
    cases p.getDN d presented.Provider.UserID with
    | error e => rfl
    | ok dn =>
      simp only [getGroups_congr p d2 d dn h1 h2 h3 h4]
  · intro dn groups hdn hg
    simp [LdapProvider.Refresh, hdn, hg]

/-- Witness for C6: on the directory where alice's password has changed
(every bind as alice now fails), `Refresh` of claims for alice still
succeeds, re-reading only group membership. -/
theorem ldap_refresh_never_verifies_password_witness :
    (pFix.Refresh dFixChanged (jwtNewClaims none) ⟨"alice", [], false, ⟨"ldap", "alice"⟩⟩).1 =
      pFix.claims (jwtNewClaims none) "alice" ["admins"] :=
  (ldap_refresh_never_verifies_password pFix dFixChanged (jwtNewClaims none)
      ⟨"alice", [], false, ⟨"ldap", "alice"⟩⟩).2.2
    "uid=alice,dc=users,dc=example,dc=org" ["admins"] rfl rfl

/-- A successful ldap claims-builder result (with the spec-modelled
`jwt.NewClaims`) carries the provider name, the username as user ID, and
the identity's `disabled = false`. -/
theorem ldap_claims_success (p : LdapProvider) (signErr : Option String)
    (username : String) (groups : List String) (c : ClaimsV)
    (h : p.claims (jwtNewClaims signErr) username groups = GoRet.ret (some c) none) :
    c.Provider.ProviderID = p.Name ∧ c.Provider.UserID = username ∧ c.Disabled = false := by
  cases signErr with
  | some e => simp [LdapProvider.claims, jwtNewClaims] at h
  | none =>
    simp only [LdapProvider.claims, jwtNewClaims, ldapBuilderUser] at h
    cases h' : c with
    | mk subject cgroups cdisabled cprovider =>
      rw [h'] at h
      cases h
      exact ⟨rfl, rfl, rfl⟩

/-- A successful allowall claims-builder result carries the provider name,
the username as user ID, and the identity's `disabled = false`. -/
theorem allowall_claims_success (p : AllowAllProvider) (signErr : Option String)
    (username : String) (c : ClaimsV)
    (h : p.claims (jwtNewClaims signErr) username = GoRet.ret (some c) none) :
    c.Provider.ProviderID = p.Name ∧ c.Provider.UserID = username ∧ c.Disabled = false := by
  cases signErr with
  | some e => simp [AllowAllProvider.claims, jwtNewClaims] at h
  | none =>
    simp only [AllowAllProvider.claims, jwtNewClaims, allowallBuilderUser] at h
    cases h' : c with
    | mk subject cgroups cdisabled cprovider =>
      rw [h'] at h
      cases h
      exact ⟨rfl, rfl, rfl⟩

/-- A successful directory-backed `Authenticate` result comes from the
claims builder applied to the username. -/
theorem ldap_authenticate_success_claims (p : LdapProvider) (d : Directory)
    (nc : NewClaimsFn) (username password : String) (c : ClaimsV)
    (h : (p.Authenticate d nc username password).1 = GoRet.ret (some c) none) :
    ∃ groups, p.claims nc username groups = GoRet.ret (some c) none := by
  cases hdn : p.getDN d username with
  | error e => simp [LdapProvider.Authenticate, hdn] at h
  | ok dn =>
    cases hvp : p.validatePassword d dn password with
    | some e => simp [LdapProvider.Authenticate, hdn, hvp] at h
    | none =>
      cases hg : p.getGroups d dn with
      | error e => simp [LdapProvider.Authenticate, hdn, hvp, hg] at h
      | ok groups =>
        exact ⟨groups, by simpa [LdapProvider.Authenticate, hdn, hvp, hg] using h⟩

/-- A successful directory-backed `Refresh` result comes from the claims
builder applied to the user ID embedded in the presented claims. -/
theorem ldap_refresh_success_claims (p : LdapProvider) (d : Directory)
    (nc : NewClaimsFn) (presented : ClaimsV) (c : ClaimsV)
    (h : (p.Refresh d nc presented).1 = GoRet.ret (some c) none) :
    ∃ groups, p.claims nc presented.Provider.UserID groups = GoRet.ret (some c) none := by
  cases hdn : p.getDN d presented.Provider.UserID with
  | error e => simp [LdapProvider.Refresh, hdn] at h
  | ok dn =>
    cases hg : p.getGroups d dn with
    | error e => simp [LdapProvider.Refresh, hdn, hg] at h
    | ok groups =>
      exact ⟨groups, by simpa [LdapProvider.Refresh, hdn, hg] using h⟩

/-- C7: for every successful `Authenticate` or `Refresh` of either
provider variant (with the spec-modelled `jwt.NewClaims`), the returned
claims carry the provider's `Name()` as provider identifier, the
authenticated username (resp. the presented user ID) as provider-scoped
user identifier, and `disabled = false`. -/
theorem provider_claims_attribution (pl : LdapProvider) (pa : AllowAllProvider)
    (d : Directory) (signErr : Option String) (username password : String)
    (presented : ClaimsV) :
    (∀ c, (pl.Authenticate d (jwtNewClaims signErr) username password).1 =
        GoRet.ret (some c) none →
      c.Provider.ProviderID = pl.Name ∧ c.Provider.UserID = username ∧
        c.Disabled = false) ∧
    (∀ c, (pl.Refresh d (jwtNewClaims signErr) presented).1 = GoRet.ret (some c) none →
      c.Provider.ProviderID = pl.Name ∧ c.Provider.UserID = presented.Provider.UserID ∧
        c.Disabled = false) ∧
    (∀ c, pa.Authenticate (jwtNewClaims signErr) username password =
        GoRet.ret (some c) none →
      c.Provider.ProviderID = pa.Name ∧ c.Provider.UserID = username ∧
        c.Disabled = false) ∧
    (∀ c, pa.Refresh (jwtNewClaims signErr) presented = GoRet.ret (some c) none →
      c.Provider.ProviderID = pa.Name ∧ c.Provider.UserID = presented.Provider.UserID ∧
        c.Disabled = false) := by
  refine ⟨?_, ?_, ?_, ?_⟩
  · intro c h
    obtain ⟨groups, hclaims⟩ :=
      ldap_authenticate_success_claims pl d (jwtNewClaims signErr) username password c h
    exact ldap_claims_success pl signErr username groups c hclaims
  · intro c h
    obtain ⟨groups, hclaims⟩ :=
      ldap_refresh_success_claims pl d (jwtNewClaims signErr) presented c h
    exact ldap_claims_success pl signErr presented.Provider.UserID groups c hclaims
  · intro c h
    exact allowall_claims_success pa signErr username c h
  · intro c h
    exact allowall_claims_success pa signErr presented.Provider.UserID c h

/-- Witness for C7: on the concrete directory, alice's successful
authentication yields claims attributed to provider `"ldap"` and user
`"alice"`, with `disabled = false`. -/
theorem provider_claims_attribution_witness :
    (⟨"alice", ["admins"], false, ⟨"ldap", "alice"⟩⟩ : ClaimsV).Provider.ProviderID =
        pFix.Name ∧
      (⟨"alice", ["admins"], false, ⟨"ldap", "alice"⟩⟩ : ClaimsV).Provider.UserID = "alice" ∧
      (⟨"alice", ["admins"], false, ⟨"ldap", "alice"⟩⟩ : ClaimsV).Disabled = false :=
  (provider_claims_attribution pFix ⟨"allowall"⟩ dFix none "alice" "alicepw"
      ⟨"alice", [], false, ⟨"ldap", "alice"⟩⟩).1
    ⟨"alice", ["admins"], false, ⟨"ldap", "alice"⟩⟩ rfl

end SensuGo
